import Mathlib

/-!
Verification of the batch image-to-PDF converter
(`image_to_PDF.py`, function `convert_images_to_pdfs`).

The Python function is shallowly embedded below.  Pure computations
(page-size resolution, point conversion, layout geometry, extension
filtering, output naming) are translated directly; the effectful parts
(PIL decode, JPEG re-encode, FPDF write, filesystem calls) are modelled
by an explicit per-file environment (`FileWorld`) saying which external
call succeeds, and an event trace recording the observable filesystem /
output actions in program order.  Real-number arithmetic of the source
is embedded as exact rational arithmetic (`ℚ`).
-/

namespace ImgPdf

/-- Model of Python `str.lower()` for the strings appearing here
(ASCII case folding, applied character by character). -/
def pyLower (s : String) : String := ⟨s.data.map Char.toLower⟩

/-- Model of Python `str.endswith(suffix)`. -/
def pyEndsWith (s suf : String) : Bool := suf.data.isSuffixOf s.data

/-- Model of `os.path.join(a, b)` for a relative non-empty second
component: concatenation with a single separator. -/
def pyJoin (a b : String) : String := a ++ "/" ++ b

/-- Index of the last `.` in a character list, if any. -/
def lastDotIdx (l : List Char) : Option Nat :=
  match l.reverse.findIdx? (fun c => c == '.') with
  | some k => some (l.length - 1 - k)
  | none => none

/-- Model of `os.path.splitext` for plain filenames (no path
separator): split at the last dot, unless every character before that
dot is itself a dot (then there is no extension). -/
def pySplitext (p : String) : String × String :=
  match lastDotIdx p.data with
  | none => (p, "")
  | some i =>
    if (p.data.take i).any (fun c => c != '.') then
      (⟨p.data.take i⟩, ⟨p.data.drop i⟩)
    else (p, "")

/-- The stem of a filename: `os.path.splitext(filename)[0]`. -/
def stem (p : String) : String := (pySplitext p).1

/-- `supported_formats` from the source: the extension tuple used by
`filename.lower().endswith(supported_formats)`. -/
def supported_formats : List String :=
  [".jpg", ".jpeg", ".png", ".bmp", ".tiff", ".gif"]

/-- The extension filter of the loop:
`filename.lower().endswith(supported_formats)`. -/
def isSupported (filename : String) : Bool :=
  supported_formats.any (fun ext => pyEndsWith (pyLower filename) ext)

/-- The `page_sizes` dict from the source, as an association list in
source order.  Note the A-series keys are capitalised exactly as in the
source. -/
def page_sizes : List (String × (ℚ × ℚ)) :=
  [("A3", (297, 420)), ("A4", (210, 297)), ("A5", (148, 210)),
   ("letter", (216, 279)), ("legal", (216, 356))]

/-- Dict key lookup: `page_sizes[k]` guarded by `k in page_sizes`. -/
def lookupPageSize (key : String) : Option (ℚ × ℚ) :=
  (page_sizes.find? (fun p => p.1 == key)).map (fun p => p.2)

/-- The runtime type of the `page_size` argument: a string, a tuple of
numbers, a list of numbers, or any other Python value. -/
inductive PageSizeInput where
  | str (s : String)
  | tup (xs : List ℚ)
  | lst (xs : List ℚ)
  | other
deriving DecidableEq

/-- The `ValueError` message raised for an unusable `page_size`
(abbreviated from the source's Chinese text). -/
def invalidPageSizeMsg : String := "不支持的页面尺寸"

/-- Page-size resolution (source lines 29-34):
`if isinstance(page_size, str) and page_size.lower() in page_sizes:`
take the dict entry; `elif isinstance(page_size, (tuple, list)) and
len(page_size) == 2:` unpack verbatim; `else: raise ValueError`. -/
def resolvePageSize : PageSizeInput → Except String (ℚ × ℚ)
  | PageSizeInput.str s =>
    match lookupPageSize (pyLower s) with
    | some wh => Except.ok wh
    | none => Except.error invalidPageSizeMsg
  | PageSizeInput.tup xs =>
    match xs with
    | [w, h] => Except.ok (w, h)
    | _ => Except.error invalidPageSizeMsg
  | PageSizeInput.lst xs =>
    match xs with
    | [w, h] => Except.ok (w, h)
    | _ => Except.error invalidPageSizeMsg
  | PageSizeInput.other => Except.error invalidPageSizeMsg

/-- The fixed conversion factor of the source: 1 mm = 2.83464567 pt. -/
def mmToPt : ℚ := 2.83464567

/-- Per-file geometry result: display size and centred position of the
image on the page, all in points. -/
structure Layout where
  imgWidth : ℚ
  imgHeight : ℚ
  xPos : ℚ
  yPos : ℚ
deriving DecidableEq, Repr

/-- The layout computation of source lines 59-77: aspect `imgW/imgH`,
branch on `pdf_page_width / pdf_page_height > img_ratio` to pick the
bound dimension, then centre. -/
def computeLayout (imgW imgH pdfW pdfH : ℚ) : Layout :=
  let imgAspect := imgW / imgH
  let wh : ℚ × ℚ :=
    if pdfW / pdfH > imgAspect then (pdfH * imgAspect, pdfH)
    else (pdfW, pdfW / imgAspect)
  { imgWidth := wh.1, imgHeight := wh.2,
    xPos := (pdfW - wh.1) / 2, yPos := (pdfH - wh.2) / 2 }

/-- The part of a decoded PIL image the routine reads: pixel size and
colour mode.  (PIL never yields negative dimensions.) -/
structure ImageInfo where
  width : Nat
  height : Nat
  mode : String
deriving DecidableEq, Repr

/-- Per-file external environment: what the fallible collaborator calls
do for this file.  `image = none` models `Image.open` raising;
`encodeOk = false` models `img.save` raising; `pdfOk = false` models
the FPDF build/output raising.  The `*Err` fields are the raised
exceptions' text `str(e)`. -/
structure FileWorld where
  image : Option ImageInfo
  decodeErr : String
  encodeOk : Bool
  encodeErr : String
  pdfOk : Bool
  pdfErr : String
deriving DecidableEq, Repr

/-- Per-file result: the success print (filename and pdf name) or the
failure print (filename and exception text). -/
inductive Outcome where
  | success (filename : String) (pdfName : String)
  | failure (filename : String) (err : String)
deriving DecidableEq, Repr

/-- The filename an outcome reports on. -/
def Outcome.filename : Outcome → String
  | Outcome.success f _ => f
  | Outcome.failure f _ => f

/-- Observable actions of the run, in program order. -/
inductive Event where
  | makeDirs (dir : String)
  | listDir (dir : String)
  | saveTemp (path : String) (dpi : Nat)
  | writePdf (path : String) (layout : Layout)
  | removeFile (path : String)
  | printSuccess (filename : String) (pdfName : String)
  | printFailure (filename : String) (err : String)
deriving DecidableEq, Repr

/-- Basename of the temporary raster: `'temp.jpg'` in the source. -/
def tempName : String := "temp.jpg"

/-- The body of the per-file `try`/`except` (source lines 44-95) for
one supported file: compute the output name, decode, compute page
points and layout, save the temporary JPEG, build and write the PDF,
remove the temporary file, print the result.  Any collaborator failure
is caught at this boundary and becomes a failure print carrying the
exception text; the trace stops at the raising call. -/
def processFile (outputFolder : String) (pageWmm pageHmm : ℚ) (dpi : Nat)
    (filename : String) (w : FileWorld) : List Event × Outcome :=
  let pdfName := stem filename ++ ".pdf"
  let outputPath := pyJoin outputFolder pdfName
  match w.image with
  | none =>
    ([Event.printFailure filename w.decodeErr],
     Outcome.failure filename w.decodeErr)
  | some img =>
    let pdfW := pageWmm * mmToPt
    let pdfH := pageHmm * mmToPt
    let L := computeLayout (img.width : ℚ) (img.height : ℚ) pdfW pdfH
    let tempPath := pyJoin outputFolder tempName
    if w.encodeOk then
      if w.pdfOk then
        ([Event.saveTemp tempPath dpi, Event.writePdf outputPath L,
          Event.removeFile tempPath, Event.printSuccess filename pdfName],
         Outcome.success filename pdfName)
      else
        ([Event.saveTemp tempPath dpi, Event.printFailure filename w.pdfErr],
         Outcome.failure filename w.pdfErr)
    else
      ([Event.printFailure filename w.encodeErr],
       Outcome.failure filename w.encodeErr)

/-- The per-file loop (source lines 41-95): each directory entry whose
lowercased name ends with a supported extension is processed; the rest
are skipped. -/
def processAll (outputFolder : String) (pageWmm pageHmm : ℚ) (dpi : Nat)
    (files : List (String × FileWorld)) : List (List Event × Outcome) :=
  (files.filter (fun f => isSupported f.1)).map
    (fun f => processFile outputFolder pageWmm pageHmm dpi f.1 f.2)

/-- External environment of a whole run: whether the output directory
already exists, and the input directory listing with each entry's
per-file environment. -/
structure RunWorld where
  outputDirExists : Bool
  files : List (String × FileWorld)

/-- `convert_images_to_pdfs` (source lines 6-95): resolve the page
size (fatal `ValueError` when unresolvable, before any filesystem
action), ensure the output directory exists, list the input directory,
then run the per-file loop. -/
def convert_images_to_pdfs (inputFolder outputFolder : String)
    (pageSize : PageSizeInput) (dpi : Nat) (w : RunWorld) :
    List Event × Except String (List Outcome) :=
  match resolvePageSize pageSize with
  | Except.error e => ([], Except.error e)
  | Except.ok wh =>
    let results := processAll outputFolder wh.1 wh.2 dpi w.files
    ((if w.outputDirExists then [] else [Event.makeDirs outputFolder])
       ++ Event.listDir inputFolder :: (results.map Prod.fst).flatten,
     Except.ok (results.map Prod.snd))

/-- The pure geometry a run computes for one image: resolved page size
in points together with the image's layout.  Used to state that the
computation is a function of the configuration and pixel size only. -/
def runGeometry (pageSize : PageSizeInput) (imgW imgH : Nat) :
    Except String (ℚ × ℚ × Layout) :=
  (resolvePageSize pageSize).map
    (fun wh =>
      (wh.1 * mmToPt, wh.2 * mmToPt,
       computeLayout (imgW : ℚ) (imgH : ℚ) (wh.1 * mmToPt) (wh.2 * mmToPt)))

/-- Whether a per-file environment makes some collaborator call fail. -/
def fileFails (w : FileWorld) : Bool :=
  w.image.isNone || !w.encodeOk || !w.pdfOk

/-- The text of the first exception the per-file body raises in a
failing environment. -/
def errOf (w : FileWorld) : String :=
  match w.image with
  | none => w.decodeErr
  | some _ => if w.encodeOk then w.pdfErr else w.encodeErr

/-- The layout as claim C5 words it: strictly-greater page ratio gives
the height-bound geometry, otherwise (equality included) the
width-bound geometry, in both cases centred. -/
def claimLayout (imgW imgH pdfW pdfH : ℚ) : Layout :=
  let r := imgW / imgH
  if pdfW / pdfH > r then
    { imgWidth := pdfH * r, imgHeight := pdfH,
      xPos := (pdfW - pdfH * r) / 2, yPos := (pdfH - pdfH) / 2 }
  else
    { imgWidth := pdfW, imgHeight := pdfW / r,
      xPos := (pdfW - pdfW) / 2, yPos := (pdfH - pdfW / r) / 2 }

lemma computeLayout_of_gt {imgW imgH pdfW pdfH : ℚ}
    (h : pdfW / pdfH > imgW / imgH) :
    computeLayout imgW imgH pdfW pdfH =
      { imgWidth := pdfH * (imgW / imgH), imgHeight := pdfH,
        xPos := (pdfW - pdfH * (imgW / imgH)) / 2,
        yPos := (pdfH - pdfH) / 2 } := by
  simp [computeLayout, h]

lemma computeLayout_of_le {imgW imgH pdfW pdfH : ℚ}
    (h : ¬ pdfW / pdfH > imgW / imgH) :
    computeLayout imgW imgH pdfW pdfH =
      { imgWidth := pdfW, imgHeight := pdfW / (imgW / imgH),
        xPos := (pdfW - pdfW) / 2,
        yPos := (pdfH - pdfW / (imgW / imgH)) / 2 } := by
  simp [computeLayout, h]

/-- Claim C1: the spec says every preset name, in any letter case,
resolves to its documented millimeter pair without error.  The code
looks the lowercased input up in a dict whose A-series keys are
capitalised, so A3/A4/A5 never resolve in any case (while letter and
legal do); this contradicts the source's own docstring and its
`__main__` call, which passes 'A4'.  This theorem evaluates the
resolver at the documented inputs, exhibiting the divergence. -/
theorem preset_resolution_at_documented_inputs :
    resolvePageSize (PageSizeInput.str "A4") = Except.error invalidPageSizeMsg
    ∧ resolvePageSize (PageSizeInput.str "a4") = Except.error invalidPageSizeMsg
    ∧ resolvePageSize (PageSizeInput.str "A3") = Except.error invalidPageSizeMsg
    ∧ resolvePageSize (PageSizeInput.str "A5") = Except.error invalidPageSizeMsg
    ∧ resolvePageSize (PageSizeInput.str "letter") = Except.ok (216, 279)
    ∧ resolvePageSize (PageSizeInput.str "LETTER") = Except.ok (216, 279)
    ∧ resolvePageSize (PageSizeInput.str "legal") = Except.ok (216, 356) :=
  ⟨rfl, rfl, rfl, rfl, rfl, rfl, rfl⟩

/-- Claim C2 (counterexample): the pair (0, 100) has a non-positive
entry, yet the resolver accepts it verbatim instead of failing, so the
claimed positivity check does not exist in the code. -/
theorem pair_nonpositive_accepted :
    resolvePageSize (PageSizeInput.tup [0, 100]) = Except.ok (0, 100)
    ∧ ¬ ∃ e, resolvePageSize (PageSizeInput.tup [0, 100]) = Except.error e := by
  refine ⟨rfl, ?_⟩
  rintro ⟨e, he⟩
  simp [resolvePageSize] at he

/-- Claim C2 (amended): every 2-element numeric pair given as pageSize
is returned unchanged as (width, height) in millimeters, regardless of
sign; the resolver performs no positivity validation. -/
theorem pair_resolution_verbatim (w h : ℚ) :
    resolvePageSize (PageSizeInput.tup [w, h]) = Except.ok (w, h) := rfl

/-- Claim C10: a 2-element list given as pageSize is accepted and used
verbatim, identically to the equivalent tuple. -/
theorem list_pair_accepted_like_tuple (w h : ℚ) :
    resolvePageSize (PageSizeInput.lst [w, h]) = Except.ok (w, h)
    ∧ resolvePageSize (PageSizeInput.lst [w, h])
        = resolvePageSize (PageSizeInput.tup [w, h]) :=
  ⟨rfl, rfl⟩

/-- Claim C5: the code's layout computation equals the claim's case
description: height-bound with displayHeight = pageHeightPt and
displayWidth = pageHeightPt * r when pageWidthPt/pageHeightPt > r,
otherwise (equality included) width-bound with displayWidth =
pageWidthPt and displayHeight = pageWidthPt / r, centred at
x = (pageWidthPt - displayWidth)/2, y = (pageHeightPt - displayHeight)/2. -/
theorem layout_branch_rule (imgW imgH pdfW pdfH : ℚ) :
    computeLayout imgW imgH pdfW pdfH = claimLayout imgW imgH pdfW pdfH := by
  by_cases h : pdfW / pdfH > imgW / imgH
  · rw [computeLayout_of_gt h]
    simp [claimLayout, h]
  · rw [computeLayout_of_le h]
    simp [claimLayout, h]

/-- Claim C4: for positive pixel dimensions and positive page
dimensions in points, the layout is inscribed in the page — both
offsets are nonnegative, offset plus display size stays within the
page in both axes, and the display aspect equals the pixel aspect
exactly (the rational embedding has no floating error). -/
theorem layout_inscribed_aspect_preserved (imgW imgH pdfW pdfH : ℚ)
    (hiw : 0 < imgW) (hih : 0 < imgH) (hpw : 0 < pdfW) (hph : 0 < pdfH) :
    0 ≤ (computeLayout imgW imgH pdfW pdfH).xPos
    ∧ 0 ≤ (computeLayout imgW imgH pdfW pdfH).yPos
    ∧ (computeLayout imgW imgH pdfW pdfH).xPos
        + (computeLayout imgW imgH pdfW pdfH).imgWidth ≤ pdfW
    ∧ (computeLayout imgW imgH pdfW pdfH).yPos
        + (computeLayout imgW imgH pdfW pdfH).imgHeight ≤ pdfH
    ∧ (computeLayout imgW imgH pdfW pdfH).imgWidth
        / (computeLayout imgW imgH pdfW pdfH).imgHeight = imgW / imgH := by
  have hr : 0 < imgW / imgH := div_pos hiw hih
  by_cases h : pdfW / pdfH > imgW / imgH
  · rw [computeLayout_of_gt h]
    have hwle : pdfH * (imgW / imgH) ≤ pdfW := by
      have := (lt_div_iff₀ hph).mp h
      nlinarith
    refine ⟨by linarith, by linarith, by linarith, by linarith, ?_⟩
    rw [mul_comm, mul_div_assoc, div_self hph.ne', mul_one]
  · rw [computeLayout_of_le h]
    have hc : pdfW / pdfH ≤ imgW / imgH := le_of_not_lt h
    have hhle : pdfW / (imgW / imgH) ≤ pdfH := by
      rw [div_le_iff₀ hr]
      have := (div_le_iff₀ hph).mp hc
      nlinarith
    refine ⟨by linarith, by linarith, by linarith, by linarith, ?_⟩
    rw [div_div_eq_mul_div]
    exact mul_div_cancel_left₀ _ hpw.ne'

/-- Claim C9: the geometry of a conversion (page dimensions in points
and the image's placement) is a function of the configuration and the
image's pixel dimensions alone, so two runs with equal configuration
and equal pixel dimensions compute identical results. -/
theorem conversion_deterministic (ps ps' : PageSizeInput)
    (iw ih iw' ih' : Nat)
    (hps : ps = ps') (hw : iw = iw') (hh : ih = ih') :
    runGeometry ps iw ih = runGeometry ps' iw' ih' := by
  subst hps; subst hw; subst hh; rfl

/-- Witness for C4 at the 1x2-pixel image on a 10x10-pt page. -/
theorem layout_inscribed_aspect_preserved_witness :
    (0:ℚ) < 1 ∧ (0:ℚ) < 2 ∧ (0:ℚ) < 10
    ∧ (0 ≤ (computeLayout 1 2 10 10).xPos
       ∧ 0 ≤ (computeLayout 1 2 10 10).yPos
       ∧ (computeLayout 1 2 10 10).xPos + (computeLayout 1 2 10 10).imgWidth ≤ 10
       ∧ (computeLayout 1 2 10 10).yPos + (computeLayout 1 2 10 10).imgHeight ≤ 10
       ∧ (computeLayout 1 2 10 10).imgWidth / (computeLayout 1 2 10 10).imgHeight
           = 1 / 2) :=
  ⟨by norm_num, by norm_num, by norm_num,
   layout_inscribed_aspect_preserved 1 2 10 10 (by norm_num) (by norm_num)
     (by norm_num) (by norm_num)⟩

/-- Witness for C9 at the letter preset and a 100x200-pixel image. -/
theorem conversion_deterministic_witness :
    runGeometry (PageSizeInput.str "letter") 100 200
      = runGeometry (PageSizeInput.str "letter") 100 200 :=
  conversion_deterministic (PageSizeInput.str "letter")
    (PageSizeInput.str "letter") 100 200 100 200 rfl rfl rfl

lemma char_toNat_ofNat_of_lt {n : Nat} (h : n < 55296) :
    (Char.ofNat n).toNat = n := by
  rw [Char.ofNat, dif_pos (Or.inl h)]
  rfl

lemma char_toLower_toNat_of_upper {c : Char}
    (h1 : 65 ≤ c.toNat) (h2 : c.toNat ≤ 90) :
    (c.toLower).toNat = c.toNat + 32 := by
  rw [Char.toLower]
  simp only [ge_iff_le]
  rw [if_pos ⟨h1, h2⟩]
  exact char_toNat_ofNat_of_lt (by omega)

lemma char_toLower_eq_self {c : Char}
    (h : ¬ (65 ≤ c.toNat ∧ c.toNat ≤ 90)) : c.toLower = c := by
  rw [Char.toLower]
  simp only [ge_iff_le]
  rw [if_neg h]

lemma char_toLower_idem (c : Char) : c.toLower.toLower = c.toLower := by
  by_cases h : 65 ≤ c.toNat ∧ c.toNat ≤ 90
  · have h1 : (c.toLower).toNat = c.toNat + 32 :=
      char_toLower_toNat_of_upper h.1 h.2
    exact char_toLower_eq_self (by omega)
  · simp only [char_toLower_eq_self h]

lemma pyLower_idem (s : String) : pyLower (pyLower s) = pyLower s := by
  show String.mk _ = String.mk _
  have hd : (pyLower s).data = s.data.map Char.toLower := rfl
  rw [hd, List.map_map]
  exact congrArg String.mk
    (List.map_congr_left (fun c _ => char_toLower_idem c))

/-- If `pyLower s` equals `t`, then `t` is a `pyLower` fixed point. -/
lemma pyLower_fixed {s t : String} (h : pyLower s = t) : pyLower t = t := by
  rw [← h, pyLower_idem]

lemma pyLower_ne {s t : String} (h : pyLower t ≠ t) : pyLower s ≠ t :=
  fun he => h (pyLower_fixed he)

/-- The five preset names in lowercase: a string names a preset
case-insensitively exactly when its lowercasing is in this list. -/
def presetNamesLower : List String := ["a3", "a4", "a5", "letter", "legal"]

lemma lookupPageSize_eq_none {k : String}
    (h3 : k ≠ "A3") (h4 : k ≠ "A4") (h5 : k ≠ "A5")
    (hl : k ≠ "letter") (hg : k ≠ "legal") :
    lookupPageSize k = none := by
  have hfind : page_sizes.find? (fun p => p.1 == k) = none := by
    rw [List.find?_eq_none]
    intro x hx
    simp only [page_sizes, List.mem_cons, List.not_mem_nil, or_false] at hx
    rcases hx with h | h | h | h | h
    all_goals subst h
    · simp only [beq_iff_eq]; exact fun he => h3 he.symm
    · simp only [beq_iff_eq]; exact fun he => h4 he.symm
    · simp only [beq_iff_eq]; exact fun he => h5 he.symm
    · simp only [beq_iff_eq]; exact fun he => hl he.symm
    · simp only [beq_iff_eq]; exact fun he => hg he.symm
  simp [lookupPageSize, hfind]

/-- Claim C3: when the pageSize is neither a preset name in any letter
case nor a 2-element pair, the run raises the configuration error
before touching any file: the trace is empty (no listing, no directory
creation, no per-file action) and the result is the fatal error. -/
theorem invalid_pagesize_aborts_before_any_file
    (ps : PageSizeInput) (inputFolder outputFolder : String)
    (dpi : Nat) (w : RunWorld)
    (h : match ps with
         | PageSizeInput.str s => pyLower s ∉ presetNamesLower
         | PageSizeInput.tup xs => xs.length ≠ 2
         | PageSizeInput.lst xs => xs.length ≠ 2
         | PageSizeInput.other => True) :
    convert_images_to_pdfs inputFolder outputFolder ps dpi w
      = ([], Except.error invalidPageSizeMsg) := by
  have hres : resolvePageSize ps = Except.error invalidPageSizeMsg := by
    cases ps with
    | str s =>
      simp only [presetNamesLower, List.mem_cons, List.not_mem_nil,
        or_false, not_or] at h
      have hA3 : pyLower s ≠ "A3" := pyLower_ne (by decide)
      have hA4 : pyLower s ≠ "A4" := pyLower_ne (by decide)
      have hA5 : pyLower s ≠ "A5" := pyLower_ne (by decide)
      have hnone := lookupPageSize_eq_none hA3 hA4 hA5 h.2.2.2.1 h.2.2.2.2
      simp [resolvePageSize, hnone]
    | tup xs =>
      rcases xs with _ | ⟨a, _ | ⟨b, _ | ⟨c, t⟩⟩⟩
      · rfl
      · rfl
      · exact absurd rfl h
      · rfl
    | lst xs =>
      rcases xs with _ | ⟨a, _ | ⟨b, _ | ⟨c, t⟩⟩⟩
      · rfl
      · rfl
      · exact absurd rfl h
      · rfl
    | other => rfl
  simp [convert_images_to_pdfs, hres]

/-- Witness for C3: the unknown preset name B4 aborts an otherwise
well-formed run with an empty trace. -/
theorem invalid_pagesize_aborts_before_any_file_witness :
    pyLower "B4" ∉ presetNamesLower
    ∧ convert_images_to_pdfs "input_images" "output_pdfs"
        (PageSizeInput.str "B4") 300 ⟨true, []⟩
        = ([], Except.error invalidPageSizeMsg) :=
  ⟨by decide,
   invalid_pagesize_aborts_before_any_file (PageSizeInput.str "B4")
     "input_images" "output_pdfs" 300 ⟨true, []⟩ (by decide)⟩

lemma processFile_snd_filename (o : String) (pW pH : ℚ) (d : Nat)
    (f : String) (w : FileWorld) :
    ((processFile o pW pH d f w).2).filename = f := by
  cases himg : w.image <;> cases henc : w.encodeOk <;> cases hpdf : w.pdfOk <;>
    simp [processFile, Outcome.filename, himg, henc, hpdf]

/-- A sample decoded image: 1000 x 2000 pixels, RGB. -/
def sampleImage : ImageInfo := { width := 1000, height := 2000, mode := "RGB" }

/-- A per-file environment in which every collaborator call succeeds. -/
def okWorld : FileWorld :=
  { image := some sampleImage, decodeErr := "", encodeOk := true,
    encodeErr := "", pdfOk := true, pdfErr := "" }

/-- A per-file environment in which decoding raises. -/
def badDecodeWorld : FileWorld :=
  { image := none, decodeErr := "cannot identify image file",
    encodeOk := true, encodeErr := "", pdfOk := true, pdfErr := "" }

/-- Claim C6: per-file failures are confined to their file.  First, the
outcome list of a listing decomposes around any entry: the files before
and after it are processed to the same outcomes whatever this entry's
environment does, so a failing file never aborts the run or disturbs
other files.  Second, in any failing environment the file's outcome is
the failure record carrying that file's name and the raised error's
text, and the file's trace ends with the failure print of exactly that
name and text. -/
theorem per_file_errors_isolated (outputFolder : String)
    (pageWmm pageHmm : ℚ) (dpi : Nat)
    (pre post : List (String × FileWorld)) (f : String) (w : FileWorld) :
    ((processAll outputFolder pageWmm pageHmm dpi
        (pre ++ (f, w) :: post)).map Prod.snd
      = (processAll outputFolder pageWmm pageHmm dpi pre).map Prod.snd
        ++ (if isSupported f
            then [(processFile outputFolder pageWmm pageHmm dpi f w).2]
            else [])
        ++ (processAll outputFolder pageWmm pageHmm dpi post).map Prod.snd)
    ∧ (fileFails w = true →
        (processFile outputFolder pageWmm pageHmm dpi f w).2
            = Outcome.failure f (errOf w)
        ∧ (processFile outputFolder pageWmm pageHmm dpi f w).1.getLast?
            = some (Event.printFailure f (errOf w))) := by
  constructor
  · simp only [processAll, List.filter_append, List.map_append,
      List.filter_cons]
    by_cases hf : isSupported f
    · simp [hf]
    · simp [hf]
  · intro hfail
    cases himg : w.image with
    | none => simp [processFile, errOf, himg]
    | some img =>
      cases henc : w.encodeOk with
      | false => simp [processFile, errOf, himg, henc]
      | true =>
        cases hpdf : w.pdfOk with
        | false => simp [processFile, errOf, himg, henc, hpdf]
        | true => simp [fileFails, himg, henc, hpdf] at hfail

/-- Witness for C6: a corrupt bad.jpg between two good files fails
with its own error text while both neighbours are unaffected. -/
theorem per_file_errors_isolated_witness :
    fileFails badDecodeWorld = true
    ∧ ((processAll "out" 210 297 300
          ([("good.png", okWorld)] ++ ("bad.jpg", badDecodeWorld)
            :: [("good2.png", okWorld)])).map Prod.snd
        = (processAll "out" 210 297 300 [("good.png", okWorld)]).map Prod.snd
          ++ (if isSupported "bad.jpg"
              then [(processFile "out" 210 297 300 "bad.jpg" badDecodeWorld).2]
              else [])
          ++ (processAll "out" 210 297 300
                [("good2.png", okWorld)]).map Prod.snd)
    ∧ (processFile "out" 210 297 300 "bad.jpg" badDecodeWorld).2
        = Outcome.failure "bad.jpg" (errOf badDecodeWorld)
    ∧ (processFile "out" 210 297 300 "bad.jpg" badDecodeWorld).1.getLast?
        = some (Event.printFailure "bad.jpg" (errOf badDecodeWorld)) :=
  ⟨rfl,
   (per_file_errors_isolated "out" 210 297 300 [("good.png", okWorld)]
      [("good2.png", okWorld)] "bad.jpg" badDecodeWorld).1,
   ((per_file_errors_isolated "out" 210 297 300 [("good.png", okWorld)]
      [("good2.png", okWorld)] "bad.jpg" badDecodeWorld).2 rfl).1,
   ((per_file_errors_isolated "out" 210 297 300 [("good.png", okWorld)]
      [("good2.png", okWorld)] "bad.jpg" badDecodeWorld).2 rfl).2⟩

/-- Claim C7: a directory entry is processed (contributes an outcome)
exactly when its lowercased name ends with a supported extension; the
filter equals the claim's suffix condition over the documented
extension list, photo.TXT is never processed and photo.JPG is. -/
theorem extension_filter_spec :
    (∀ (outputFolder : String) (pageWmm pageHmm : ℚ) (dpi : Nat)
       (files : List (String × FileWorld)),
       (processAll outputFolder pageWmm pageHmm dpi files).map
           (fun r => r.2.filename)
         = (files.map Prod.fst).filter isSupported)
    ∧ (∀ name : String, isSupported name = true
        ↔ ∃ ext ∈ ([".jpg", ".jpeg", ".png", ".bmp", ".tiff", ".gif"]
            : List String), ext.data <:+ (pyLower name).data)
    ∧ isSupported "photo.TXT" = false
    ∧ isSupported "photo.JPG" = true := by
  refine ⟨?_, ?_, by decide, by decide⟩
  · intro o pW pH d files
    induction files with
    | nil => rfl
    | cons hd tl ih =>
      rcases hd with ⟨n, w⟩
      by_cases hn : isSupported n
      · simp [processAll, List.filter_cons, hn, processFile_snd_filename,
          ← ih]
      · simp [processAll, List.filter_cons, hn, ← ih]
  · intro name
    simp [isSupported, supported_formats, pyEndsWith, List.any_eq_true]

/-- Witness for C7 at a two-file listing holding photo.JPG and
photo.TXT. -/
theorem extension_filter_spec_witness :
    ((processAll "out" 210 297 300
        [("photo.JPG", okWorld), ("photo.TXT", okWorld)]).map
          (fun r => r.2.filename)
      = ([("photo.JPG", okWorld), ("photo.TXT", okWorld)].map
          Prod.fst).filter isSupported)
    ∧ (isSupported "photo.JPG" = true
        ↔ ∃ ext ∈ ([".jpg", ".jpeg", ".png", ".bmp", ".tiff", ".gif"]
            : List String), ext.data <:+ (pyLower "photo.JPG").data) :=
  ⟨extension_filter_spec.1 "out" 210 297 300
     [("photo.JPG", okWorld), ("photo.TXT", okWorld)],
   extension_filter_spec.2.1 "photo.JPG"⟩

/-- Claim C8: on the success path the file's trace is exactly: save the
temporary raster, write the single PDF at
outputFolder/stem(filename).pdf, remove the temporary raster, and only
then print the success message; the outcome records that one pdf name.
In particular exactly one PDF is written, it carries the stem-based
name inside the output directory, and the temporary file is removed
before the success report. -/
theorem success_path_output_and_cleanup (outputFolder : String)
    (pageWmm pageHmm : ℚ) (dpi : Nat) (f : String) (w : FileWorld)
    (img : ImageInfo) (himg : w.image = some img)
    (henc : w.encodeOk = true) (hpdf : w.pdfOk = true) :
    processFile outputFolder pageWmm pageHmm dpi f w
      = ([Event.saveTemp (pyJoin outputFolder tempName) dpi,
          Event.writePdf (pyJoin outputFolder (stem f ++ ".pdf"))
            (computeLayout (img.width : ℚ) (img.height : ℚ)
              (pageWmm * mmToPt) (pageHmm * mmToPt)),
          Event.removeFile (pyJoin outputFolder tempName),
          Event.printSuccess f (stem f ++ ".pdf")],
         Outcome.success f (stem f ++ ".pdf")) := by
  simp [processFile, himg, henc, hpdf]

/-- Witness for C8: converting a.png on an A4-sized page in a fully
successful environment. -/
theorem success_path_output_and_cleanup_witness :
    okWorld.image = some sampleImage
    ∧ processFile "output_pdfs" 210 297 300 "a.png" okWorld
      = ([Event.saveTemp (pyJoin "output_pdfs" tempName) 300,
          Event.writePdf (pyJoin "output_pdfs" (stem "a.png" ++ ".pdf"))
            (computeLayout (sampleImage.width : ℚ) (sampleImage.height : ℚ)
              (210 * mmToPt) (297 * mmToPt)),
          Event.removeFile (pyJoin "output_pdfs" tempName),
          Event.printSuccess "a.png" (stem "a.png" ++ ".pdf")],
         Outcome.success "a.png" (stem "a.png" ++ ".pdf")) :=
  ⟨rfl,
   success_path_output_and_cleanup "output_pdfs" 210 297 300 "a.png"
     okWorld sampleImage rfl rfl rfl⟩

end ImgPdf
